import Mathlib

/-!
Verification development for the Forewarned local-alert engine
(`src/local_alert_manager.py`, default rule table from `src/config.py`).

The engine is embedded shallowly:

* Python strings are Lean `String`s; Python's `in` substring test is
  `pyIn` (contiguous character-infix); `.lower()`/`.upper()` are
  `pyLower`/`pyUpper` (per-character case mapping).
* A weather alert is its `event` and `severity` fields (the only fields
  the engine reads).  An EOC snapshot is the url-keyed dictionary
  `eoc_states`, embedded as an association list in insertion order
  (Python dict iteration order); the engine reads only the
  `state`/`activated` fields of each entry.
* A condition rule is the tagged variant the duck-typed dict encodes: a
  dict with a `severity` key is a weather rule (its `type` key defaults
  to `any`), otherwise a dict with a `state` key is an EOC rule, and a
  dict with neither key falls through the `if`/`elif` and contributes no
  entry to `results` — the `malformed` case.
* The manual-override lookup (MQTT `get_state`, which returns an
  `Optional[bool]`, falling back to the REST `state == 'on'` test, with
  lookup errors treated as off) is abstracted as one boolean per level,
  `ov : String → Bool`.
* `datetime.now()` timestamps are omitted: no branch of the engine
  reads them.
* Side effects of `update_and_trigger` (`update_callback`,
  `_update_ha_sensor`, `_trigger_routines`, `_trigger_clear_routine`)
  are reified as an `Effect` list returned alongside the new committed
  state.
-/

/-- Contiguous-sublist test on character lists, by structural recursion
so that it evaluates in the kernel. -/
def charInfix (needle : List Char) : List Char → Bool
  | [] => needle.isEmpty
  | c :: rest => needle.isPrefixOf (c :: rest) || charInfix needle rest

/-- Python's substring test `needle in hay` on strings: contiguous
character-infix. -/
def pyIn (needle hay : String) : Bool :=
  charInfix needle.data hay.data

/-- Python's `str.lower()` on the ASCII strings the engine handles:
per-character lower-casing. -/
def pyLower (s : String) : String :=
  ⟨s.data.map Char.toLower⟩

/-- Python's `str.upper()` on the ASCII strings the engine handles:
per-character upper-casing. -/
def pyUpper (s : String) : String :=
  ⟨s.data.map Char.toUpper⟩

/-- The two fields of a weather alert that `local_alert_manager.py`
reads: `alert.get('event', '')` and `alert.get('severity', '')`. -/
structure WeatherAlert where
  event : String
  severity : String
deriving DecidableEq

/-- The two fields of an `eoc_states` entry that the engine reads:
`state_info.get('state', 'inactive')` and
`state_info.get('activated', False)`. -/
structure EOCSiteState where
  state : String
  activated : Bool
deriving DecidableEq

/-- `weather_alerts: List[Dict]` in iteration order. -/
abbrev WeatherSnapshot := List WeatherAlert

/-- `eoc_states: Dict[url, info]` as an association list in dict
iteration order. -/
abbrev EOCSnapshot := List (String × EOCSiteState)

/-- One rule dict of a condition set, as the key-sniffing in
`_evaluate_conditions` classifies it: `'severity' in rule` → weather
rule (with `rule.get('type', 'any')` already applied), `elif 'state' in
rule` → EOC rule, neither key → `malformed` (skipped by both
branches). -/
inductive ConditionRule where
  | weather (type severity : String)
  | eoc (state : String)
  | malformed
deriving DecidableEq

/-- A conditions dict: `conditions.get('operator', 'or')` and
`conditions.get('rules', [])` already applied, so a missing conditions
dict is `⟨"or", []⟩`. -/
structure ConditionSet where
  operator : String
  rules : List ConditionRule
deriving DecidableEq

/-- The body of the `for rule in rules` loop of
`LocalAlertManager._evaluate_conditions`: the boolean appended to
`results` for one rule, or `none` when the rule has neither a
`severity` nor a `state` key and the loop appends nothing. -/
def rule_result (rule : ConditionRule) (weather_alerts : WeatherSnapshot)
    (eoc_states : EOCSnapshot) : Option Bool :=
  match rule with
  | .weather t s =>
      let target_type := pyLower t
      let target_severity := pyLower s
      some (weather_alerts.any fun alert =>
        let alert_type := pyLower alert.event
        let alert_severity := pyLower alert.severity
        (target_type == ("any") || pyIn target_type alert_type) &&
        (target_severity == ("any") || target_severity == alert_severity))
  | .eoc s =>
      let target_state := pyLower s
      some (eoc_states.any fun site =>
        site.2.activated && (pyLower site.2.state == target_state))
  | .malformed => none

/-- `LocalAlertManager._evaluate_conditions`: empty rule list returns
`False`; otherwise collect the per-rule booleans and combine with
`all` under operator `'and'`, `any` otherwise. -/
def evaluate_conditions (conditions : ConditionSet)
    (weather_alerts : WeatherSnapshot) (eoc_states : EOCSnapshot) : Bool :=
  if conditions.rules.isEmpty then
    false
  else
    let results := conditions.rules.filterMap
      (fun rule => rule_result rule weather_alerts eoc_states)
    if conditions.operator == ("and") then
      results.all id
    else
      results.any id

example :
    evaluate_conditions ⟨"or", [.weather "any" "severe"]⟩
      [⟨"Severe Thunderstorm Warning", "Severe"⟩] [] = true := by decide

example :
    evaluate_conditions ⟨"or", [.eoc "stand up"]⟩
      [] [("site1", ⟨"stand up", true⟩)] = true := by decide

example :
    evaluate_conditions ⟨"and", []⟩ [⟨"x", "extreme"⟩] [] = false := by decide

/-- Prefix test `s.startswith(pre)` used on routine identifiers, as a
character-list prefix check. -/
def pyStartsWith (s pre : String) : Bool :=
  pre.data.isPrefixOf s.data

/-- Characters of a list before the first occurrence of `sep` (the
whole list when `sep` does not occur): Python's `s.split(sep)[0]` for a
non-empty `sep`. -/
def charTakeUntil (sep : List Char) : List Char → List Char
  | [] => []
  | c :: rest =>
      if sep.isPrefixOf (c :: rest) then [] else c :: charTakeUntil sep rest

/-- Python's `s.split(sep)[0]` for the non-empty separators the engine
uses. -/
def pySplitHead (sep s : String) : String :=
  ⟨charTakeUntil sep.data s.data⟩

/-- The committed alert state of `LocalAlertManager` (`current_state`),
without the `timestamp` field, which no branch of the engine reads. -/
structure LocalAlertState where
  active : Bool
  level : String
  reason : String
  triggered_by : List String
deriving DecidableEq

/-- `self.alert_levels`: priority of each level name.  The dictionary
is only ever indexed with the five names below. -/
def alert_levels (level : String) : Nat :=
  if level == "none" then 0
  else if level == "advisory" then 1
  else if level == "watch" then 2
  else if level == "warning" then 3
  else if level == "emergency" then 4
  else 0

/-- The descending priority order `['emergency', 'warning', 'watch',
'advisory']` iterated by both `_check_manual_overrides` and
`evaluate_alert_state`. -/
def descending_levels : List String :=
  ["emergency", "warning", "watch", "advisory"]

/-- `LocalAlertManager._check_manual_overrides` over the abstract
per-level boolean override lookup `ov`: return the first level of
`descending_levels` whose switch is on, with reason
`"Manual override: <LEVEL>"`. -/
def check_manual_overrides (ov : String → Bool) : Option (String × String) :=
  match descending_levels.find? (fun level => ov level) with
  | some level => some (level, ("Manual override: ") ++ pyUpper level)
  | none => none

/-- One level's entry of the `alert_rules` config dict, with the
`.get` defaults of `evaluate_alert_state` already applied: a missing
conditions dict is `⟨"or", []⟩` and a missing `condition_logic` is
`"or"`. -/
structure AlertLevelRule where
  weather_conditions : ConditionSet
  eoc_conditions : ConditionSet
  condition_logic : String
deriving DecidableEq

/-- The `alert_rules` table as a total lookup (a level missing from the
dict maps to the all-default rule `⟨⟨"or", []⟩, ⟨"or", []⟩, "or"⟩`). -/
abbrev AlertRules := String → AlertLevelRule

/-- The per-level combined condition of `evaluate_alert_state`:
weather and EOC condition sets joined by the level's
`condition_logic`. -/
def level_triggered (alert_rules : AlertRules) (w : WeatherSnapshot)
    (e : EOCSnapshot) (level_name : String) : Bool :=
  let level_config := alert_rules level_name
  let weather_match := evaluate_conditions level_config.weather_conditions w e
  let eoc_match := evaluate_conditions level_config.eoc_conditions w e
  if level_config.condition_logic == ("and") then weather_match && eoc_match
  else weather_match || eoc_match

/-- The event truncation of `evaluate_alert_state`: split at the first
`" for "`, then at the first `" - "`. -/
def short_event_of (event : String) : String :=
  let s1 := if pyIn (" for ") event then pySplitHead (" for ") event else event
  if pyIn (" - ") s1 then pySplitHead (" - ") s1 else s1

/-- The `if weather_match:` collection loop of `evaluate_alert_state`,
threading the `(triggers, reasons)` pair: every alert of the snapshot
contributes its truncated event, de-duplicated against `reasons`, with
the trigger prefixed `"Weather: "`. -/
def add_weather_triggers (w : WeatherSnapshot)
    (p : List String × List String) : List String × List String :=
  w.foldl (fun q alert =>
    let short := short_event_of alert.event
    if q.2.contains short then q
    else (q.1 ++ [("Weather: ") ++ short], q.2 ++ [short])) p

/-- The `if eoc_match:` collection loop of `evaluate_alert_state`:
every activated site contributes `"LDMG: <STATE>"` to `triggers`
(de-duplicated against `triggers`) and `"LDMG <state>"` to
`reasons`. -/
def add_eoc_triggers (e : EOCSnapshot)
    (p : List String × List String) : List String × List String :=
  e.foldl (fun q site =>
    if site.2.activated then
      let eoc_state := site.2.state
      let trigger_text := ("LDMG: ") ++ pyUpper eoc_state
      if q.1.contains trigger_text then q
      else (q.1 ++ [trigger_text], q.2 ++ [("LDMG ") ++ eoc_state])
    else q) p

/-- The accumulator of the level loop of `evaluate_alert_state`:
`max_level`, `triggers`, `reasons`. -/
structure EvalAcc where
  max_level : String
  triggers : List String
  reasons : List String
deriving DecidableEq

/-- One iteration of the `for level_name in [...]` loop of
`evaluate_alert_state`: if the level's combined condition holds and its
priority exceeds the current `max_level`, adopt it and collect
triggers/reasons from whichever side matched. -/
def eval_level_step (alert_rules : AlertRules) (w : WeatherSnapshot)
    (e : EOCSnapshot) (acc : EvalAcc) (level_name : String) : EvalAcc :=
  let level_config := alert_rules level_name
  let weather_match := evaluate_conditions level_config.weather_conditions w e
  let eoc_match := evaluate_conditions level_config.eoc_conditions w e
  if level_triggered alert_rules w e level_name &&
      decide (alert_levels acc.max_level < alert_levels level_name) then
    let p0 := (acc.triggers, acc.reasons)
    let p1 := if weather_match then add_weather_triggers w p0 else p0
    let p2 := if eoc_match then add_eoc_triggers e p1 else p1
    ⟨level_name, p2.1, p2.2⟩
  else acc

/-- The rule-based part of `LocalAlertManager.evaluate_alert_state`
(the code after the manual-override check). -/
def evaluate_alert_state_auto (alert_rules : AlertRules)
    (w : WeatherSnapshot) (e : EOCSnapshot) : LocalAlertState :=
  let acc := descending_levels.foldl (eval_level_step alert_rules w e) ⟨"none", [], []⟩
  let active := acc.max_level != ("none")
  let reason :=
    if acc.reasons.isEmpty then ("No active alerts")
    else String.intercalate (", ") acc.reasons
  ⟨active, acc.max_level, reason, acc.triggers⟩

/-- `LocalAlertManager.evaluate_alert_state`: manual overrides first,
then the rule-based classifier. -/
def evaluate_alert_state (ov : String → Bool) (alert_rules : AlertRules)
    (w : WeatherSnapshot) (e : EOCSnapshot) : LocalAlertState :=
  match check_manual_overrides ov with
  | some (manual_level, manual_reason) =>
      ⟨true, manual_level, manual_reason, [manual_reason]⟩
  | none => evaluate_alert_state_auto alert_rules w e

/-- The side effects of `update_and_trigger` and its helpers, reified.
`updateSensor` stands for the batch of `set_state` calls of
`_update_ha_sensor` (a pure function of the new state); `updateCallback`
for `self.update_callback`. -/
inductive Effect where
  | updateCallback (st : LocalAlertState)
  | updateSensor (st : LocalAlertState)
  | activateScene (id : String)
  | runScript (id : String)
  | notify (message title : String)
  | voipCall (number level reason : String)
deriving DecidableEq

/-- The parts of the configuration dict that `update_and_trigger` and
its helpers read: the `alert_rules` table, the `routines` dict (total,
with missing keys mapped to `[]`, matching `routines.get(key, [])` and
the `routine_key in routines` test), and the VOIP settings
(`voip_enabled` stands for "`voip_integration` is present and
enabled"). -/
structure Config where
  alert_rules : AlertRules
  routines : String → List String
  voip_enabled : Bool
  alert_numbers : List String

/-- The `routine_mapping` dict of `_trigger_routines`. -/
def routine_mapping (level : String) : Option String :=
  if level == "advisory" then some ("advisory_alert")
  else if level == "watch" then some ("watch_alert")
  else if level == "warning" then some ("warning_alert")
  else if level == "emergency" then some ("emergency_alert")
  else none

/-- The `for routine in routine_list` dispatch loop shared by
`_trigger_routines` and `_trigger_clear_routine`: `scene.`-prefixed
identifiers activate a scene, `script.`-prefixed ones run a script,
anything else is only logged. -/
def render_routines (routine_list : List String) : List Effect :=
  routine_list.filterMap fun routine =>
    if pyStartsWith routine ("scene.") then some (Effect.activateScene routine)
    else if pyStartsWith routine ("script.") then some (Effect.runScript routine)
    else none

/-- `LocalAlertManager._trigger_routines` (with `_make_voip_calls`
inlined): level routines, then the activation notification, then one
call per configured number when VOIP is enabled. -/
def trigger_routines (config : Config) (new_state : LocalAlertState) : List Effect :=
  let routine_effects :=
    match routine_mapping new_state.level with
    | some routine_key => render_routines (config.routines routine_key)
    | none => []
  let notify_effect :=
    Effect.notify (("Local alert activated: ") ++ new_state.reason)
      (("Forewarned - ") ++ pyUpper new_state.level ++ (" Alert"))
  let call_effects :=
    if config.voip_enabled then
      config.alert_numbers.map
        (fun number => Effect.voipCall number new_state.level new_state.reason)
    else []
  routine_effects ++ [notify_effect] ++ call_effects

/-- `LocalAlertManager._trigger_clear_routine`: the `alert_cleared`
routine list, then the all-clear notification. -/
def trigger_clear_routine (config : Config) : List Effect :=
  render_routines (config.routines ("alert_cleared")) ++
    [Effect.notify ("All alerts have been cleared") ("Forewarned - All Clear")]

/-- `LocalAlertManager.update_and_trigger` as a state transformer:
given the committed state, return the new committed state, the emitted
transition (if any), and the dispatched effects.  The committed state
is replaced, the callback/sensor updates run, and routines dispatch
only inside the `if state_changed:` branch. -/
def update_and_trigger (config : Config) (ov : String → Bool)
    (w : WeatherSnapshot) (e : EOCSnapshot) (old_state : LocalAlertState) :
    LocalAlertState × Option (LocalAlertState × LocalAlertState) × List Effect :=
  let new_state := evaluate_alert_state ov config.alert_rules w e
  let state_changed :=
    (old_state.active != new_state.active) || (old_state.level != new_state.level)
  if state_changed then
    (new_state, some (old_state, new_state),
      [Effect.updateCallback new_state, Effect.updateSensor new_state] ++
        (if new_state.active then trigger_routines config new_state
         else trigger_clear_routine config))
  else
    (old_state, none, [])

/-- The default `alert_rules` table of `config.py` (`load_config`),
with the engine's `.get` defaults applied to levels missing from the
dict. -/
def default_alert_rules : AlertRules := fun level =>
  if level == "advisory" then
    ⟨⟨"or", [.weather "any" "minor"]⟩,
     ⟨"or", [.eoc "alert", .eoc "stand down"]⟩, "or"⟩
  else if level == "watch" then
    ⟨⟨"or", [.weather "any" "moderate"]⟩,
     ⟨"or", [.eoc "lean forward"]⟩, "or"⟩
  else if level == "warning" then
    ⟨⟨"or", [.weather "any" "severe"]⟩,
     ⟨"or", []⟩, "or"⟩
  else if level == "emergency" then
    ⟨⟨"or", [.weather "any" "extreme", .weather "Tropical Cyclone Warning" "any"]⟩,
     ⟨"or", [.eoc "stand up"]⟩, "or"⟩
  else ⟨⟨"or", []⟩, ⟨"or", []⟩, "or"⟩

/-- The initial committed state set by `LocalAlertManager.__init__`. -/
def initial_state : LocalAlertState :=
  ⟨false, "none", "", []⟩

/-- An override lookup with every switch off. -/
def no_overrides : String → Bool := fun _ => false

/-- A configuration with the default rule table, no routines and no
VOIP, as `load_config` produces when nothing is configured. -/
def default_config : Config :=
  ⟨default_alert_rules, fun _ => [], false, []⟩

example :
    (evaluate_alert_state no_overrides default_alert_rules
      [⟨"Severe Thunderstorm Warning", "Severe"⟩] []).level = "warning" := by decide

example :
    (evaluate_alert_state no_overrides default_alert_rules
      [] [("site1", ⟨"stand up", true⟩)]).reason = "LDMG stand up" := by decide

theorem filterMap_rule_result_of_malformed (w : WeatherSnapshot) (e : EOCSnapshot)
    (rules : List ConditionRule) (hm : ∀ r ∈ rules, r = ConditionRule.malformed) :
    rules.filterMap (fun rule => rule_result rule w e) = [] := by
  induction rules with
  | nil => rfl
  | cons a t ih =>
      have ha := hm a (by simp)
      subst ha
      simpa [rule_result] using ih (fun r hr => hm r (by simp [hr]))

/-- C5: for every weather snapshot, EOC snapshot and operator (in
particular both `and` and `or`), a condition set with an empty rule
list evaluates to false. -/
theorem empty_rule_list_always_false (op : String) (w : WeatherSnapshot)
    (e : EOCSnapshot) :
    evaluate_conditions ⟨op, []⟩ w e = false := rfl

/-- C10: a non-empty rule list whose rules all lack both a `severity`
and a `state` key collects no per-rule results, so it evaluates true
under operator `and` (vacuous conjunction) and false under `or`. -/
theorem malformed_rules_vacuous_under_and (w : WeatherSnapshot) (e : EOCSnapshot)
    (rules : List ConditionRule) (hne : rules ≠ [])
    (hm : ∀ r ∈ rules, r = ConditionRule.malformed) :
    evaluate_conditions ⟨"and", rules⟩ w e = true ∧
    evaluate_conditions ⟨"or", rules⟩ w e = false := by
  have hfm := filterMap_rule_result_of_malformed w e rules hm
  have hne2 : rules.isEmpty = false := by
    cases rules with
    | nil => exact absurd rfl hne
    | cons a t => rfl
  constructor <;> simp [evaluate_conditions, hfm, hne2]

/-- Witness for C10 at the singleton malformed rule list. -/
theorem malformed_rules_vacuous_under_and_witness :
    ([ConditionRule.malformed] ≠ ([] : List ConditionRule)) ∧
    (∀ r ∈ [ConditionRule.malformed], r = ConditionRule.malformed) ∧
    evaluate_conditions ⟨"and", [ConditionRule.malformed]⟩ [] [] = true ∧
    evaluate_conditions ⟨"or", [ConditionRule.malformed]⟩ [] [] = false := by
  refine ⟨by decide, by decide, ?_, ?_⟩
  · exact (malformed_rules_vacuous_under_and [] [] [ConditionRule.malformed]
      (by decide) (by decide)).1
  · exact (malformed_rules_vacuous_under_and [] [] [ConditionRule.malformed]
      (by decide) (by decide)).2

/-- C4: a weather rule matches iff some alert in the snapshot has the
rule's type as a case-insensitive substring of its event (or the type
is `any`) and case-insensitively equal severity (or the severity is
`any`); an EOC rule matches iff some activated site has a
case-insensitively equal state.  Stated for a singleton rule set under
an arbitrary operator. -/
theorem condition_atom_matching (op t s st : String) (w : WeatherSnapshot)
    (e : EOCSnapshot) :
    (evaluate_conditions ⟨op, [ConditionRule.weather t s]⟩ w e = true ↔
      ∃ alert ∈ w,
        (pyLower t = ("any") ∨ pyIn (pyLower t) (pyLower alert.event) = true) ∧
        (pyLower s = ("any") ∨ pyLower s = pyLower alert.severity)) ∧
    (evaluate_conditions ⟨op, [ConditionRule.eoc st]⟩ w e = true ↔
      ∃ site ∈ e, site.2.activated = true ∧ pyLower site.2.state = pyLower st) := by
  constructor
  · have hred : evaluate_conditions ⟨op, [ConditionRule.weather t s]⟩ w e =
        (w.any fun alert =>
          ((pyLower t == ("any")) || pyIn (pyLower t) (pyLower alert.event)) &&
          ((pyLower s == ("any")) || pyLower s == pyLower alert.severity)) := by
      simp [evaluate_conditions, rule_result]
    rw [hred, List.any_eq_true]
    constructor
    · rintro ⟨alert, hmem, hp⟩
      refine ⟨alert, hmem, ?_⟩
      simpa [Bool.and_eq_true, Bool.or_eq_true, beq_iff_eq] using hp
    · rintro ⟨alert, hmem, hp⟩
      refine ⟨alert, hmem, ?_⟩
      simpa [Bool.and_eq_true, Bool.or_eq_true, beq_iff_eq] using hp
  · have hred : evaluate_conditions ⟨op, [ConditionRule.eoc st]⟩ w e =
        (e.any fun site =>
          site.2.activated && (pyLower site.2.state == pyLower st)) := by
      simp [evaluate_conditions, rule_result]
    rw [hred, List.any_eq_true]
    constructor
    · rintro ⟨site, hmem, hp⟩
      refine ⟨site, hmem, ?_⟩
      simpa [Bool.and_eq_true, beq_iff_eq] using hp
    · rintro ⟨site, hmem, hp⟩
      refine ⟨site, hmem, ?_⟩
      simpa [Bool.and_eq_true, beq_iff_eq] using hp

theorem eval_level_step_max_mono (alert_rules : AlertRules) (w : WeatherSnapshot)
    (e : EOCSnapshot) (acc : EvalAcc) (l : String) :
    alert_levels acc.max_level ≤ alert_levels (eval_level_step alert_rules w e acc l).max_level := by
  unfold eval_level_step
  split
  · next h =>
      simp only [Bool.and_eq_true, decide_eq_true_eq] at h
      exact Nat.le_of_lt h.2
  · exact Nat.le_refl _

theorem eval_level_step_triggered_ge (alert_rules : AlertRules) (w : WeatherSnapshot)
    (e : EOCSnapshot) (acc : EvalAcc) (l : String)
    (h : level_triggered alert_rules w e l = true) :
    alert_levels l ≤ alert_levels (eval_level_step alert_rules w e acc l).max_level := by
  unfold eval_level_step
  split
  · exact Nat.le_refl _
  · next hg =>
      have hnlt : ¬ alert_levels acc.max_level < alert_levels l := by
        intro hlt
        exact hg (by simp [h, hlt])
      exact Nat.le_of_not_lt hnlt

theorem eval_level_step_not_triggered (alert_rules : AlertRules) (w : WeatherSnapshot)
    (e : EOCSnapshot) (acc : EvalAcc) (l : String)
    (h : level_triggered alert_rules w e l = false) :
    eval_level_step alert_rules w e acc l = acc := by
  unfold eval_level_step
  simp [h]

theorem eval_level_step_not_lt (alert_rules : AlertRules) (w : WeatherSnapshot)
    (e : EOCSnapshot) (acc : EvalAcc) (l : String)
    (h : ¬ alert_levels acc.max_level < alert_levels l) :
    eval_level_step alert_rules w e acc l = acc := by
  unfold eval_level_step
  simp [h]

theorem foldl_eval_level_step_max_mono (alert_rules : AlertRules) (w : WeatherSnapshot)
    (e : EOCSnapshot) (ls : List String) (acc : EvalAcc) :
    alert_levels acc.max_level ≤
      alert_levels ((ls.foldl (eval_level_step alert_rules w e) acc)).max_level := by
  induction ls generalizing acc with
  | nil => exact Nat.le_refl _
  | cons a t ih =>
      exact Nat.le_trans (eval_level_step_max_mono alert_rules w e acc a) (ih _)

/-- C1: with no manual override active, if the combined
(weather/EOC) condition of a level holds, `evaluate_alert_state` never
returns a level of strictly lower priority. -/
theorem classifier_priority_monotonicity (ov : String → Bool)
    (alert_rules : AlertRules) (w : WeatherSnapshot) (e : EOCSnapshot)
    (lvl : String)
    (hov : check_manual_overrides ov = none)
    (hmem : lvl ∈ descending_levels)
    (htrig : level_triggered alert_rules w e lvl = true) :
    alert_levels lvl ≤ alert_levels (evaluate_alert_state ov alert_rules w e).level := by
  have hstate : evaluate_alert_state ov alert_rules w e =
      evaluate_alert_state_auto alert_rules w e := by
    simp [evaluate_alert_state, hov]
  rw [hstate]
  show alert_levels lvl ≤
    alert_levels ((descending_levels.foldl (eval_level_step alert_rules w e)
      ⟨"none", [], []⟩)).max_level
  simp only [descending_levels, List.foldl_cons, List.foldl_nil]
  have hmem2 : lvl = "emergency" ∨ lvl = "warning" ∨ lvl = "watch" ∨ lvl = "advisory" := by
    simpa [descending_levels] using hmem
  rcases hmem2 with h | h | h | h <;> subst h
  · exact Nat.le_trans (eval_level_step_triggered_ge alert_rules w e _ _ htrig)
      (Nat.le_trans (eval_level_step_max_mono alert_rules w e _ _)
        (Nat.le_trans (eval_level_step_max_mono alert_rules w e _ _)
          (eval_level_step_max_mono alert_rules w e _ _)))
  · exact Nat.le_trans (eval_level_step_triggered_ge alert_rules w e _ _ htrig)
      (Nat.le_trans (eval_level_step_max_mono alert_rules w e _ _)
        (eval_level_step_max_mono alert_rules w e _ _))
  · exact Nat.le_trans (eval_level_step_triggered_ge alert_rules w e _ _ htrig)
      (eval_level_step_max_mono alert_rules w e _ _)
  · exact eval_level_step_triggered_ge alert_rules w e _ _ htrig

/-- Witness for C1: a severe weather alert triggers the `warning`
level's condition under the default rule table and the classifier
indeed returns a level of at least that priority. -/
theorem classifier_priority_monotonicity_witness :
    check_manual_overrides no_overrides = none ∧
    ("warning") ∈ descending_levels ∧
    level_triggered default_alert_rules [⟨"Storm", "severe"⟩] [] ("warning") = true ∧
    alert_levels ("warning") ≤
      alert_levels ((evaluate_alert_state no_overrides default_alert_rules
        [⟨"Storm", "severe"⟩] []).level) := by
  refine ⟨by decide, by decide, by decide, ?_⟩
  exact classifier_priority_monotonicity no_overrides default_alert_rules
    [⟨"Storm", "severe"⟩] [] ("warning") (by decide) (by decide) (by decide)

/-- C2: if any manual override switch is on, `evaluate_alert_state`
returns `active=true` with the highest-priority on-switch found probing
from `emergency` down to `advisory`, reason exactly
`"Manual override: <LEVEL>"` (upper-cased), and the snapshots have no
influence on the result. -/
theorem override_precedence (ov : String → Bool) (alert_rules : AlertRules)
    (w : WeatherSnapshot) (e : EOCSnapshot) (lvl : String)
    (h : descending_levels.find? (fun level => ov level) = some lvl) :
    evaluate_alert_state ov alert_rules w e =
      ⟨true, lvl, ("Manual override: ") ++ pyUpper lvl,
        [("Manual override: ") ++ pyUpper lvl]⟩ ∧
    (∀ l ∈ descending_levels, ov l = true → alert_levels l ≤ alert_levels lvl) ∧
    (∀ w2 e2, evaluate_alert_state ov alert_rules w2 e2 =
      evaluate_alert_state ov alert_rules w e) := by
  have h1 : check_manual_overrides ov =
      some (lvl, ("Manual override: ") ++ pyUpper lvl) := by
    simp [check_manual_overrides, h]
  refine ⟨?_, ?_, ?_⟩
  · simp [evaluate_alert_state, h1]
  · intro l hl hol
    have hlvl : lvl = "emergency" ∨ lvl = "warning" ∨ lvl = "watch" ∨ lvl = "advisory" := by
      have := List.find?_some h
      have hmem := List.mem_of_find?_eq_some h
      simpa [descending_levels] using hmem
    have hl2 : l = "emergency" ∨ l = "warning" ∨ l = "watch" ∨ l = "advisory" := by
      simpa [descending_levels] using hl
    rcases hl2 with h2 | h2 | h2 | h2 <;> subst h2 <;>
      rcases hlvl with h3 | h3 | h3 | h3 <;> subst h3 <;>
        first
          | decide
          | (exfalso
             cases hov1 : ov ("emergency") <;>
               cases hov2 : ov ("warning") <;>
                 cases hov3 : ov ("watch") <;>
                   cases hov4 : ov ("advisory") <;>
                     simp_all [descending_levels, List.find?])
  · intro w2 e2
    simp [evaluate_alert_state, h1]

/-- Witness for C2: only the `watch` switch is on. -/
theorem override_precedence_witness :
    descending_levels.find? (fun level => (level == ("watch") : Bool)) = some ("watch") ∧
    evaluate_alert_state (fun level => (level == ("watch") : Bool))
        default_alert_rules [] [] =
      ⟨true, "watch", "Manual override: WATCH", ["Manual override: WATCH"]⟩ := by
  refine ⟨by decide, ?_⟩
  have hmain := override_precedence (fun level => (level == ("watch") : Bool))
    default_alert_rules [] [] ("watch") (by decide)
  rw [hmain.1]
  decide

/-- Counterexample to C3: with the default rule table, committed state
`{active: true, level: warning, reason: "X"}` and a snapshot that again
yields `warning` but with reason `"Storm"`, `update_and_trigger` emits
no transition and leaves the committed reason at `"X"` — the candidate
reason is not written, contradicting "the committed state's reason is
still replaced". -/
theorem transition_reason_not_replaced_cex :
    (update_and_trigger default_config no_overrides [⟨"Storm", "severe"⟩] []
        ⟨true, "warning", "X", []⟩).2.1 = none ∧
    (evaluate_alert_state no_overrides default_config.alert_rules
        [⟨"Storm", "severe"⟩] []).reason = "Storm" ∧
    (update_and_trigger default_config no_overrides [⟨"Storm", "severe"⟩] []
        ⟨true, "warning", "X", []⟩).1 = ⟨true, "warning", "X", []⟩ := by
  refine ⟨by decide, by decide, by decide⟩

/-- C3 (amended): `update_and_trigger` emits a transition exactly when
the candidate's `active` flag or `level` differs from the committed
one; when no transition is emitted the committed state is left entirely
unchanged (in particular its reason is **not** replaced). -/
theorem transition_iff_active_or_level_changed (config : Config)
    (ov : String → Bool) (w : WeatherSnapshot) (e : EOCSnapshot)
    (old_state : LocalAlertState) :
    ((update_and_trigger config ov w e old_state).2.1.isSome =
      ((old_state.active != (evaluate_alert_state ov config.alert_rules w e).active) ||
       (old_state.level != (evaluate_alert_state ov config.alert_rules w e).level))) ∧
    ((update_and_trigger config ov w e old_state).2.1 = none →
      (update_and_trigger config ov w e old_state).1 = old_state) := by
  constructor
  · unfold update_and_trigger
    dsimp only
    split
    · next hc => simp [hc]
    · next hc => simp [Bool.not_eq_true] at hc; simp [hc]
  · unfold update_and_trigger
    dsimp only
    split
    · intro hcontra; simp at hcontra
    · intro _; rfl

/-- Witness for C3 (amended): no change at all emits no transition and
commits nothing. -/
theorem transition_iff_active_or_level_changed_witness :
    (update_and_trigger default_config no_overrides [] [] initial_state).2.1 = none ∧
    (update_and_trigger default_config no_overrides [] [] initial_state).1 =
      initial_state := by
  refine ⟨by decide, ?_⟩
  exact (transition_iff_active_or_level_changed default_config no_overrides
    [] [] initial_state).2 (by decide)

/-- C7: submitting the same snapshot pair (and override state) a second
time emits no transition and dispatches no effect on the second call;
moreover, whenever the freshly computed `active`/`level` equal the
committed ones, the call commits nothing, emits nothing and dispatches
nothing. -/
theorem update_and_trigger_idempotent (config : Config) (ov : String → Bool)
    (w : WeatherSnapshot) (e : EOCSnapshot) (s0 : LocalAlertState) :
    ((update_and_trigger config ov w e
        (update_and_trigger config ov w e s0).1).2.1 = none ∧
     (update_and_trigger config ov w e
        (update_and_trigger config ov w e s0).1).2.2 = []) ∧
    ((evaluate_alert_state ov config.alert_rules w e).active = s0.active →
     (evaluate_alert_state ov config.alert_rules w e).level = s0.level →
     update_and_trigger config ov w e s0 = (s0, none, [])) := by
  constructor
  · by_cases hch : ((s0.active != (evaluate_alert_state ov config.alert_rules w e).active) ||
        (s0.level != (evaluate_alert_state ov config.alert_rules w e).level)) = true
    · constructor <;> simp [update_and_trigger, hch]
    · simp [Bool.not_eq_true] at hch
      constructor <;> simp [update_and_trigger, hch]
  · intro h1 h2
    have hch : ((s0.active != (evaluate_alert_state ov config.alert_rules w e).active) ||
        (s0.level != (evaluate_alert_state ov config.alert_rules w e).level)) = false := by
      simp [h1, h2]
    simp [update_and_trigger, hch]

/-- Witness for C7 at the empty snapshot pair and the initial state. -/
theorem update_and_trigger_idempotent_witness :
    (evaluate_alert_state no_overrides default_config.alert_rules [] []).active =
      initial_state.active ∧
    (evaluate_alert_state no_overrides default_config.alert_rules [] []).level =
      initial_state.level ∧
    update_and_trigger default_config no_overrides [] [] initial_state =
      (initial_state, none, []) := by
  refine ⟨by decide, by decide, ?_⟩
  exact (update_and_trigger_idempotent default_config no_overrides [] []
    initial_state).2 (by decide) (by decide)

theorem mem_render_routines (eff : Effect) (lst : List String)
    (h : eff ∈ render_routines lst) :
    (∃ id2, eff = Effect.activateScene id2) ∨ (∃ id2, eff = Effect.runScript id2) := by
  unfold render_routines at h
  rw [List.mem_filterMap] at h
  obtain ⟨r, _, heq⟩ := h
  split_ifs at heq <;> simp only [Option.some_inj] at heq
  · exact Or.inl ⟨r, heq.symm⟩
  · exact Or.inr ⟨r, heq.symm⟩

/-- C9: on a transition whose new state is inactive, the dispatched
effects are exactly the callback/sensor updates, the `alert_cleared`
routine list and the all-clear notification; no voice call is attempted
and every scene/script invoked comes from the `alert_cleared` list. -/
theorem clear_transition_dispatch (config : Config) (ov : String → Bool)
    (w : WeatherSnapshot) (e : EOCSnapshot) (old_state : LocalAlertState)
    (hsome : (update_and_trigger config ov w e old_state).2.1.isSome = true)
    (hclear : (update_and_trigger config ov w e old_state).1.active = false) :
    (update_and_trigger config ov w e old_state).2.2 =
      [Effect.updateCallback (update_and_trigger config ov w e old_state).1,
       Effect.updateSensor (update_and_trigger config ov w e old_state).1] ++
        (render_routines (config.routines ("alert_cleared")) ++
          [Effect.notify ("All alerts have been cleared") ("Forewarned - All Clear")]) ∧
    (∀ eff ∈ (update_and_trigger config ov w e old_state).2.2,
      ∀ number level reason, eff ≠ Effect.voipCall number level reason) ∧
    (∀ eff ∈ (update_and_trigger config ov w e old_state).2.2,
      ((∃ id2, eff = Effect.activateScene id2) ∨ (∃ id2, eff = Effect.runScript id2)) →
        eff ∈ render_routines (config.routines ("alert_cleared"))) := by
  revert hsome hclear
  unfold update_and_trigger
  dsimp only
  split
  · next hc =>
      intro hsome hclear
      dsimp only at hclear
      rw [if_neg (by simp [hclear])]
      refine ⟨by simp [trigger_clear_routine], ?_, ?_⟩
      · intro eff hmem number level reason heq
        subst heq
        simp only [List.mem_append, List.mem_cons, List.mem_singleton] at hmem
        rcases hmem with (h | h | h) | h
        · exact Effect.noConfusion h
        · exact Effect.noConfusion h
        · exact absurd h (List.not_mem_nil _)
        · unfold trigger_clear_routine at h
          rw [List.mem_append] at h
          rcases h with h | h
          · rcases mem_render_routines _ _ h with ⟨id2, h2⟩ | ⟨id2, h2⟩ <;>
              exact Effect.noConfusion h2
          · simp at h
      · intro eff hmem hshape
        simp only [List.mem_append, List.mem_cons, List.mem_singleton] at hmem
        rcases hmem with (h | h | h) | h
        · rcases hshape with ⟨id2, h2⟩ | ⟨id2, h2⟩ <;> subst h <;>
            exact Effect.noConfusion h2
        · rcases hshape with ⟨id2, h2⟩ | ⟨id2, h2⟩ <;> subst h <;>
            exact Effect.noConfusion h2
        · exact absurd h (List.not_mem_nil _)
        · unfold trigger_clear_routine at h
          rw [List.mem_append] at h
          rcases h with h | h
          · exact h
          · simp only [List.mem_singleton] at h
            rcases hshape with ⟨id2, h2⟩ | ⟨id2, h2⟩ <;> subst h <;>
              exact Effect.noConfusion h2
  · intro hsome
    simp at hsome

/-- Witness for C9: a committed `warning` state cleared by an empty
snapshot pair. -/
theorem clear_transition_dispatch_witness :
    (update_and_trigger default_config no_overrides [] []
        ⟨true, "warning", "X", []⟩).2.1.isSome = true ∧
    (update_and_trigger default_config no_overrides [] []
        ⟨true, "warning", "X", []⟩).1.active = false ∧
    (update_and_trigger default_config no_overrides [] []
        ⟨true, "warning", "X", []⟩).2.2 =
      [Effect.updateCallback (update_and_trigger default_config no_overrides [] []
          ⟨true, "warning", "X", []⟩).1,
       Effect.updateSensor (update_and_trigger default_config no_overrides [] []
          ⟨true, "warning", "X", []⟩).1] ++
        (render_routines (default_config.routines ("alert_cleared")) ++
          [Effect.notify ("All alerts have been cleared") ("Forewarned - All Clear")]) := by
  refine ⟨by decide, by decide, ?_⟩
  exact (clear_transition_dispatch default_config no_overrides [] []
    ⟨true, "warning", "X", []⟩ (by decide) (by decide)).1

/-- The de-duplication the spec describes for reason construction:
keep the first occurrence of each string. -/
def dedup_keep_first (xs : List String) : List String :=
  xs.foldl (fun acc s2 => if acc.contains s2 then acc else acc ++ [s2]) []

/-- The weather `triggered_by` entries as §4.2 of the spec words them:
take each alert's event string, truncate at the first `" for "` then
`" - "`, de-duplicate, prefix `"Weather: "`. -/
def spec_weather_trigger_texts (w : WeatherSnapshot) : List String :=
  (dedup_keep_first (w.map (fun alert => short_event_of alert.event))).map
    (fun s2 => ("Weather: ") ++ s2)

/-- The de-duplicating fold over truncated events underlying both the
code's collection loop and the spec's description. -/
def shorts_fold (t : List WeatherAlert) (rs : List String) : List String :=
  t.foldl (fun acc alert =>
    if acc.contains (short_event_of alert.event) then acc
    else acc ++ [short_event_of alert.event]) rs

theorem spec_weather_trigger_texts_eq_shorts_fold (w : WeatherSnapshot) :
    spec_weather_trigger_texts w =
      (shorts_fold w []).map (fun s2 => ("Weather: ") ++ s2) := by
  unfold spec_weather_trigger_texts dedup_keep_first shorts_fold
  rw [List.foldl_map]

theorem add_weather_triggers_inv (t : List WeatherAlert) (rs : List String) :
    add_weather_triggers t (rs.map (fun s2 => ("Weather: ") ++ s2), rs) =
      ((shorts_fold t rs).map (fun s2 => ("Weather: ") ++ s2), shorts_fold t rs) := by
  induction t generalizing rs with
  | nil => rfl
  | cons a t ih =>
      by_cases hc : rs.contains (short_event_of a.event) = true
      · have hstep : add_weather_triggers (a :: t)
            (rs.map (fun s2 => ("Weather: ") ++ s2), rs) =
            add_weather_triggers t (rs.map (fun s2 => ("Weather: ") ++ s2), rs) := by
          unfold add_weather_triggers
          rw [List.foldl_cons]
          dsimp only
          rw [if_pos hc]
        have hR : shorts_fold (a :: t) rs = shorts_fold t rs := by
          unfold shorts_fold
          rw [List.foldl_cons]
          rw [if_pos hc]
        rw [hstep, hR]
        exact ih rs
      · have hstep : add_weather_triggers (a :: t)
            (rs.map (fun s2 => ("Weather: ") ++ s2), rs) =
            add_weather_triggers t
              ((rs ++ [short_event_of a.event]).map (fun s2 => ("Weather: ") ++ s2),
               rs ++ [short_event_of a.event]) := by
          unfold add_weather_triggers
          rw [List.foldl_cons]
          dsimp only
          rw [if_neg hc, List.map_append]
          rfl
        have hR : shorts_fold (a :: t) rs = shorts_fold t (rs ++ [short_event_of a.event]) := by
          unfold shorts_fold
          rw [List.foldl_cons]
          rw [if_neg hc]
        rw [hstep, hR]
        exact ih (rs ++ [short_event_of a.event])

theorem add_weather_triggers_nil_start (w : WeatherSnapshot) :
    add_weather_triggers w ([], []) =
      ((shorts_fold w []).map (fun s2 => ("Weather: ") ++ s2), shorts_fold w []) := by
  have h := add_weather_triggers_inv w []
  simpa using h

theorem eval_level_step_weather_only (alert_rules : AlertRules)
    (w : WeatherSnapshot) (e : EOCSnapshot) (acc : EvalAcc) (l : String)
    (htrig : level_triggered alert_rules w e l = true)
    (hwm : evaluate_conditions (alert_rules l).weather_conditions w e = true)
    (hem : evaluate_conditions (alert_rules l).eoc_conditions w e = false)
    (hlt : alert_levels acc.max_level < alert_levels l) :
    eval_level_step alert_rules w e acc l =
      ⟨l, (add_weather_triggers w (acc.triggers, acc.reasons)).1,
          (add_weather_triggers w (acc.triggers, acc.reasons)).2⟩ := by
  unfold eval_level_step
  rw [if_pos (by simp [htrig, hlt])]
  dsimp only
  rw [hwm, hem]
  simp

theorem eval_level_step_lower (alert_rules : AlertRules) (w : WeatherSnapshot)
    (e : EOCSnapshot) (ml l : String) (ts rs : List String)
    (h : ¬ alert_levels ml < alert_levels l) :
    eval_level_step alert_rules w e ⟨ml, ts, rs⟩ l = ⟨ml, ts, rs⟩ :=
  eval_level_step_not_lt alert_rules w e ⟨ml, ts, rs⟩ l h

/-- C6 (amended): when the winning (first-triggered) level's weather
conditions matched and its EOC conditions did not, the `triggered_by`
entries are built from **every** alert in the snapshot — not only those
satisfying the matched conditions — truncating each event at the first
`" for "` then `" - "`, de-duplicating, and prefixing `"Weather: "`. -/
theorem weather_reason_construction (ov : String → Bool)
    (alert_rules : AlertRules) (w : WeatherSnapshot) (e : EOCSnapshot)
    (lvl : String)
    (hov : check_manual_overrides ov = none)
    (hmem : lvl ∈ descending_levels)
    (hhigher : ∀ l ∈ descending_levels, alert_levels lvl < alert_levels l →
      level_triggered alert_rules w e l = false)
    (htrig : level_triggered alert_rules w e lvl = true)
    (hwm : evaluate_conditions (alert_rules lvl).weather_conditions w e = true)
    (hem : evaluate_conditions (alert_rules lvl).eoc_conditions w e = false) :
    (evaluate_alert_state ov alert_rules w e).triggered_by =
      spec_weather_trigger_texts w := by
  have hstate : evaluate_alert_state ov alert_rules w e =
      evaluate_alert_state_auto alert_rules w e := by
    simp [evaluate_alert_state, hov]
  rw [hstate]
  have hmem2 : lvl = "emergency" ∨ lvl = "warning" ∨ lvl = "watch" ∨ lvl = "advisory" := by
    simpa [descending_levels] using hmem
  unfold evaluate_alert_state_auto
  simp only [descending_levels, List.foldl_cons, List.foldl_nil]
  rw [spec_weather_trigger_texts_eq_shorts_fold]
  rcases hmem2 with h | h | h | h <;> subst h
  · rw [eval_level_step_weather_only alert_rules w e _ _ htrig hwm hem (by decide)]
    rw [add_weather_triggers_nil_start]
    rw [eval_level_step_lower alert_rules w e ("emergency") ("warning") _ _ (by decide)]
    rw [eval_level_step_lower alert_rules w e ("emergency") ("watch") _ _ (by decide)]
    rw [eval_level_step_lower alert_rules w e ("emergency") ("advisory") _ _ (by decide)]
  · rw [eval_level_step_not_triggered alert_rules w e _ _
      (hhigher ("emergency") (by simp [descending_levels]) (by decide))]
    rw [eval_level_step_weather_only alert_rules w e _ _ htrig hwm hem (by decide)]
    rw [add_weather_triggers_nil_start]
    rw [eval_level_step_lower alert_rules w e ("warning") ("watch") _ _ (by decide)]
    rw [eval_level_step_lower alert_rules w e ("warning") ("advisory") _ _ (by decide)]
  · rw [eval_level_step_not_triggered alert_rules w e _ _
      (hhigher ("emergency") (by simp [descending_levels]) (by decide))]
    rw [eval_level_step_not_triggered alert_rules w e _ _
      (hhigher ("warning") (by simp [descending_levels]) (by decide))]
    rw [eval_level_step_weather_only alert_rules w e _ _ htrig hwm hem (by decide)]
    rw [add_weather_triggers_nil_start]
    rw [eval_level_step_lower alert_rules w e ("watch") ("advisory") _ _ (by decide)]
  · rw [eval_level_step_not_triggered alert_rules w e _ _
      (hhigher ("emergency") (by simp [descending_levels]) (by decide))]
    rw [eval_level_step_not_triggered alert_rules w e _ _
      (hhigher ("warning") (by simp [descending_levels]) (by decide))]
    rw [eval_level_step_not_triggered alert_rules w e _ _
      (hhigher ("watch") (by simp [descending_levels]) (by decide))]
    rw [eval_level_step_weather_only alert_rules w e _ _ htrig hwm hem (by decide)]
    rw [add_weather_triggers_nil_start]

/-- Witness for C6 (amended): the `warning` level wins on a severe
alert while a second, non-matching minor alert is present; both events
appear, truncated, de-duplicated and prefixed. -/
theorem weather_reason_construction_witness :
    check_manual_overrides no_overrides = none ∧
    ("warning") ∈ descending_levels ∧
    (∀ l ∈ descending_levels,
      alert_levels ("warning") < alert_levels l →
        level_triggered default_alert_rules
          [⟨"Storm", "severe"⟩, ⟨"Drizzle", "minor"⟩] [] l = false) ∧
    level_triggered default_alert_rules
      [⟨"Storm", "severe"⟩, ⟨"Drizzle", "minor"⟩] [] ("warning") = true ∧
    (evaluate_alert_state no_overrides default_alert_rules
        [⟨"Storm", "severe"⟩, ⟨"Drizzle", "minor"⟩] []).triggered_by =
      spec_weather_trigger_texts [⟨"Storm", "severe"⟩, ⟨"Drizzle", "minor"⟩] := by
  refine ⟨by decide, by decide, by decide, by decide, ?_⟩
  exact weather_reason_construction no_overrides default_alert_rules
    [⟨"Storm", "severe"⟩, ⟨"Drizzle", "minor"⟩] [] ("warning")
    (by decide) (by decide) (by decide) (by decide) (by decide) (by decide)

/-- Counterexample to C6 as stated: under the default rule table the
winning level is `warning`, the `Drizzle/minor` alert does **not**
satisfy the matched weather conditions, yet `"Weather: Drizzle"` is
among the `triggered_by` entries — the code collects every alert in the
snapshot, not only the satisfying ones. -/
theorem weather_reason_nonmatching_alert_cex :
    (evaluate_alert_state no_overrides default_alert_rules
        [⟨"Storm", "severe"⟩, ⟨"Drizzle", "minor"⟩] []).level = "warning" ∧
    evaluate_conditions (default_alert_rules ("warning")).weather_conditions
        [⟨"Drizzle", "minor"⟩] [] = false ∧
    (evaluate_alert_state no_overrides default_alert_rules
        [⟨"Storm", "severe"⟩, ⟨"Drizzle", "minor"⟩] []).triggered_by =
      ["Weather: Storm", "Weather: Drizzle"] := by
  refine ⟨by decide, by decide, by decide⟩

/-- Counterexample to C8 as stated: with one activated `stand up` site
and an empty weather snapshot, the classifier does return `emergency`,
but the resulting `reason` field is `"LDMG stand up"` and does **not**
contain the substring `"LDMG: STAND UP"` (which only appears in
`triggered_by`). -/
theorem scenario_b_reason_field_cex :
    (evaluate_alert_state no_overrides default_alert_rules
        [] [("site1", ⟨"stand up", true⟩)]).level = "emergency" ∧
    pyIn ("LDMG: STAND UP")
        ((evaluate_alert_state no_overrides default_alert_rules
          [] [("site1", ⟨"stand up", true⟩)]).reason) = false := by
  refine ⟨by decide, by decide⟩

/-- C8 (amended): Scenario B under the default rule table — one
activated `stand up` site and an empty weather snapshot — classifies as
`emergency`; `"LDMG: STAND UP"` appears among the `triggered_by`
entries, while the `reason` field is `"LDMG stand up"`. -/
theorem scenario_b_emergency :
    (evaluate_alert_state no_overrides default_alert_rules
        [] [("site1", ⟨"stand up", true⟩)]).level = "emergency" ∧
    ("LDMG: STAND UP") ∈ (evaluate_alert_state no_overrides default_alert_rules
        [] [("site1", ⟨"stand up", true⟩)]).triggered_by ∧
    (evaluate_alert_state no_overrides default_alert_rules
        [] [("site1", ⟨"stand up", true⟩)]).reason = "LDMG stand up" := by
  refine ⟨by decide, by decide, by decide⟩
